import Mathlib

/-!
Shallow embedding of `src/keep/api/models/alert.py` (the alert
normalization model of the keep repository): the `AlertSeverity` and
`AlertStatus` enumerations, the raw payload mapping, the pydantic-v1
validator pipeline of `AlertDto` (pre root validator
`set_default_values`, the per-field validators
`assign_fingerprint_if_none`, `validate_deleted`,
`validate_last_received`, `validate_dismissed`, typed field validation,
and the post root validator `validate_status`), together with the
auxiliary machinery the source relies on: Python `json.dumps`,
`hashlib.sha256(...).hexdigest()`, and
`datetime.strptime(_, "%Y-%m-%dT%H:%M:%S.%fZ")`.

Python strings are modelled as lists of Unicode characters (`PyStr`),
machine-independent; Python `datetime` values (all with `tzinfo=utc`)
as 7-tuples of numerals compared lexicographically, which is exactly
CPython's comparison for same-timezone aware datetimes.
-/

/-- A Python `str`: a finite sequence of Unicode code points. -/
abbrev PyStr := List Char

/-- Decidable equality for `Except`, used to evaluate the pipeline on
concrete inputs. -/
instance {ε α : Type} [DecidableEq ε] [DecidableEq α] : DecidableEq (Except ε α) :=
  fun a b =>
    match a, b with
    | .error e, .error f =>
      if h : e = f then .isTrue (h ▸ rfl)
      else .isFalse (fun hh => h (Except.error.inj hh))
    | .ok x, .ok y =>
      if h : x = y then .isTrue (h ▸ rfl)
      else .isFalse (fun hh => h (Except.ok.inj hh))
    | .error _, .ok _ => .isFalse Except.noConfusion
    | .ok _, .error _ => .isFalse Except.noConfusion

/-- `AlertSeverity` enum of the source: `(value, severity_order)` pairs
`critical=5, high=4, warning=3, info=2, low=1`. -/
inductive AlertSeverity
  | critical
  | high
  | warning
  | info
  | low
deriving DecidableEq, Repr, BEq, Fintype

/-- `severity_order` / the `order` property of `AlertSeverity`. -/
def AlertSeverity.order : AlertSeverity → Nat
  | .critical => 5
  | .high => 4
  | .warning => 3
  | .info => 2
  | .low => 1

/-- String constant helper: the canonical value of each severity. -/
def AlertSeverity.value : AlertSeverity → PyStr
  | .critical => "critical".data
  | .high => "high".data
  | .warning => "warning".data
  | .info => "info".data
  | .low => "low".data

/-- Class member iteration order of `AlertSeverity` (definition order). -/
def AlertSeverity.members : List AlertSeverity :=
  [.critical, .high, .warning, .info, .low]

/-- `AlertSeverity.from_number`: the first member whose order equals `n`;
`none` models the raised `ValueError`. -/
def AlertSeverity.from_number (n : Int) : Option AlertSeverity :=
  AlertSeverity.members.find? (fun s => (s.order : Int) = n)

/-- `AlertSeverity(v)` enum-by-value lookup on a string. -/
def AlertSeverity.fromValue (s : PyStr) : Option AlertSeverity :=
  AlertSeverity.members.find? (fun v => v.value = s)

/-- `AlertSeverity.__lt__`. -/
def AlertSeverity.pylt (a b : AlertSeverity) : Bool := a.order < b.order

/-- `AlertSeverity.__le__`. -/
def AlertSeverity.pyle (a b : AlertSeverity) : Bool := a.order ≤ b.order

/-- `AlertSeverity.__gt__`. -/
def AlertSeverity.pygt (a b : AlertSeverity) : Bool := a.order > b.order

/-- `AlertSeverity.__ge__`. -/
def AlertSeverity.pyge (a b : AlertSeverity) : Bool := a.order ≥ b.order

/-- `AlertStatus` enum of the source. -/
inductive AlertStatus
  | firing
  | resolved
  | acknowledged
  | suppressed
  | pending
deriving DecidableEq, Repr, BEq

/-- The `_value_` string of each `AlertStatus` member. -/
def AlertStatus.value : AlertStatus → PyStr
  | .firing => "firing".data
  | .resolved => "resolved".data
  | .acknowledged => "acknowledged".data
  | .suppressed => "suppressed".data
  | .pending => "pending".data

/-- Members of `AlertStatus` in definition order. -/
def AlertStatus.members : List AlertStatus :=
  [.firing, .resolved, .acknowledged, .suppressed, .pending]

/-- `AlertStatus(v)` enum-by-value lookup on a string. -/
def AlertStatus.fromValue (s : PyStr) : Option AlertStatus :=
  AlertStatus.members.find? (fun v => v.value = s)

/-- A JSON-decoded Python value as it can occur in the raw payload
mapping, plus the two enum instances that `set_default_values`
substitutes into the mapping before typed validation.  (Nested
lists/dicts and floats do not occur in any behaviour the claims
quantify over and are omitted; consequently the list branch of
`validate_deleted` is represented only by its fall-through.) -/
inductive JValue
  | jstr (s : PyStr)
  | jint (n : Int)
  | jbool (b : Bool)
  | jnull
  | jsev (v : AlertSeverity)
  | jstat (v : AlertStatus)
deriving DecidableEq, Repr, BEq

/-- Python truthiness of a `JValue` (`bool(v)`); enum instances are
truthy by default. -/
def JValue.truthy : JValue → Bool
  | .jstr s => !s.isEmpty
  | .jint n => n ≠ 0
  | .jbool b => b
  | .jnull => false
  | .jsev _ => true
  | .jstat _ => true

/-- A Python `dict` of field name to value, in insertion order. -/
abbrev Values := List (PyStr × JValue)

/-- `dict.get(k)`: the first binding of `k`, if any. -/
def Values.get : Values → PyStr → Option JValue
  | [], _ => none
  | (k', v) :: rest, k => if k' = k then some v else Values.get rest k

/-- `dict[k] = v`: replace the binding of `k` in place, or append. -/
def Values.set : Values → PyStr → JValue → Values
  | [], k, v => [(k, v)]
  | (k', v') :: rest, k, v =>
    if k' = k then (k, v) :: rest else (k', v') :: Values.set rest k v

/-- `dict.pop(k, None)`: remove the binding of `k`, if present. -/
def Values.pop : Values → PyStr → Values
  | [], _ => []
  | (k', v') :: rest, k =>
    if k' = k then rest else (k', v') :: Values.pop rest k

/-- The diagnostic observations (`logging.warning` / `logger.warning`
calls) the pipeline can emit; each records the offending raw value. -/
inductive Warning
  | invalidSeverity (raw : Option JValue)
  | invalidStatus (raw : Option JValue)
  | noNameForFingerprint
deriving DecidableEq, Repr, BEq

/-- The ways record construction can abort: a raw `KeyError` escaping
`set_default_values`, a pydantic missing-required-field error, a
`TypeError` (non-serializable `json.dumps` input or subscripting a
non-string), a `ValueError` raised inside a field validator
(`strptime` failure), or a pydantic type-coercion error. -/
inductive PyErr
  | keyError (key : PyStr)
  | missingField (field : PyStr)
  | typeError
  | valueError (field : PyStr)
  | fieldTypeError (field : PyStr)
deriving DecidableEq, Repr, BEq

/-- Field-name keys used by the pipeline. -/
def kId : PyStr := "id".data

/-- The `name` key. -/
def kName : PyStr := "name".data

/-- The `status` key. -/
def kStatus : PyStr := "status".data

/-- The `severity` key. -/
def kSeverity : PyStr := "severity".data

/-- The `lastReceived` key. -/
def kLastReceived : PyStr := "lastReceived".data

/-- The `fingerprint` key. -/
def kFingerprint : PyStr := "fingerprint".data

/-- The `deleted` key. -/
def kDeleted : PyStr := "deleted".data

/-- The `dismissUntil` key. -/
def kDismissUntil : PyStr := "dismissUntil".data

/-- The `dismissed` key. -/
def kDismissed : PyStr := "dismissed".data

/-- The `assignees` key (popped by `set_default_values`). -/
def kAssignees : PyStr := "assignees".data

/-- The `deletedAt` key (popped by `set_default_values`). -/
def kDeletedAt : PyStr := "deletedAt".data

/-- The literal `"true"` compared against by `validate_dismissed`. -/
def trueLit : PyStr := "true".data

/-- The literal `"forever"` sentinel of `dismissUntil`. -/
def foreverLit : PyStr := "forever".data

/-- Lowercase hex digit for a nibble. -/
def hexDigit (n : Nat) : Char :=
  if n < 10 then Char.ofNat (48 + n) else Char.ofNat (87 + n)

/-- Four-digit lowercase hex rendering, as in `json.dumps` `\uXXXX`
escapes. -/
def hex4 (n : Nat) : PyStr :=
  [hexDigit ((n / 4096) % 16), hexDigit ((n / 256) % 16),
   hexDigit ((n / 16) % 16), hexDigit (n % 16)]

/-- `json.dumps` escaping of one character under the default
`ensure_ascii=True`: printable ASCII other than quote and backslash is
literal, the named C escapes are used where they exist, every other
character below `0x20` or above `0x7e` becomes `\uXXXX` (a surrogate
pair beyond the BMP). -/
def jsonEscapeChar (c : Char) : PyStr :=
  if c = '"' then ['\\', '"']
  else if c = '\\' then ['\\', '\\']
  else if c = '\n' then ['\\', 'n']
  else if c = '\r' then ['\\', 'r']
  else if c = '\t' then ['\\', 't']
  else if c.toNat = 8 then ['\\', 'b']
  else if c.toNat = 12 then ['\\', 'f']
  else if 32 ≤ c.toNat ∧ c.toNat ≤ 126 then [c]
  else if c.toNat < 65536 then '\\' :: 'u' :: hex4 c.toNat
  else
    '\\' :: 'u' :: hex4 (55296 + (c.toNat - 65536) / 1024) ++
      ('\\' :: 'u' :: hex4 (56320 + (c.toNat - 65536) % 1024))

/-- `json.dumps` rendering of a Python string (quoted and escaped). -/
def jsonQuote (s : PyStr) : PyStr :=
  '"' :: (s.flatMap jsonEscapeChar) ++ ['"']

/-- `json.dumps` of a single value; `none` models the `TypeError`
("Object of type ... is not JSON serializable") raised for enum
instances, since the call site passes no `default=` handler. -/
def dumpsJ : JValue → Option PyStr
  | .jstr s => some (jsonQuote s)
  | .jint n => some (toString n).data
  | .jbool b => some (if b then "true".data else "false".data)
  | .jnull => some "null".data
  | .jsev _ => none
  | .jstat _ => none

/-- `json.dumps` of the items of a dict, joined by `", "`. -/
def dumpsItems : Values → Option PyStr
  | [] => some []
  | [(k, v)] => (dumpsJ v).map (fun s => jsonQuote k ++ (": ".data ++ s))
  | (k, v) :: rest =>
    match dumpsJ v, dumpsItems rest with
    | some s, some t => some (jsonQuote k ++ (": ".data ++ s) ++ (", ".data ++ t))
    | _, _ => none

/-- `json.dumps(values)` for a dict `values`. -/
def dumpsValues (vs : Values) : Option PyStr :=
  (dumpsItems vs).map (fun body => '{' :: body ++ ['}'])

/-- UTF-8 encoding of one code point (`str.encode`). -/
def utf8EncodeCp (n : Nat) : List Nat :=
  if n < 128 then [n]
  else if n < 2048 then [192 + n / 64, 128 + n % 64]
  else if n < 65536 then [224 + n / 4096, 128 + (n / 64) % 64, 128 + n % 64]
  else [240 + n / 262144, 128 + (n / 4096) % 64, 128 + (n / 64) % 64,
        128 + n % 64]

/-- `s.encode()`: UTF-8 bytes of a Python string. -/
def utf8Bytes (s : PyStr) : List Nat :=
  s.flatMap (fun c => utf8EncodeCp c.toNat)

/-- Right rotation of a 32-bit word represented as a `Nat` below `2^32`. -/
def rotr32 (n x : Nat) : Nat :=
  ((x >>> n) ||| (x <<< (32 - n))) % 4294967296

/-- The eight SHA-256 initial hash values. -/
structure Sha256State where
  a : Nat
  b : Nat
  c : Nat
  d : Nat
  e : Nat
  f : Nat
  g : Nat
  h : Nat
deriving Repr, DecidableEq

/-- SHA-256 initial state (FIPS 180-4). -/
def sha256Init : Sha256State :=
  ⟨1779033703, 3144134277, 1013904242, 2773480762,
   1359893119, 2600822924, 528734635, 1541459225⟩

/-- SHA-256 round constants (FIPS 180-4). -/
def sha256K : List Nat :=
  [1116352408, 1899447441, 3049323471, 3921009573,
   961987163, 1508970993, 2453635748, 2870763221,
   3624381080, 310598401, 607225278, 1426881987,
   1925078388, 2162078206, 2614888103, 3248222580,
   3835390401, 4022224774, 264347078, 604807628,
   770255983, 1249150122, 1555081692, 1996064986,
   2554220882, 2821834349, 2952996808, 3210313671,
   3336571891, 3584528711, 113926993, 338241895,
   666307205, 773529912, 1294757372, 1396182291,
   1695183700, 1986661051, 2177026350, 2456956037,
   2730485921, 2820302411, 3259730800, 3345764771,
   3516065817, 3600352804, 4094571909, 275423344,
   430227734, 506948616, 659060556, 883997877,
   958139571, 1322822218, 1537002063, 1747873779,
   1955562222, 2024104815, 2227730452, 2361852424,
   2428436474, 2756734187, 3204031479, 3329325298]

/-- Big-endian bytes of a 64-bit length field. -/
def be64 (n : Nat) : List Nat :=
  [(n >>> 56) % 256, (n >>> 48) % 256, (n >>> 40) % 256, (n >>> 32) % 256,
   (n >>> 24) % 256, (n >>> 16) % 256, (n >>> 8) % 256, n % 256]

/-- SHA-256 message padding: `0x80`, zeros to 56 mod 64, then the
bit length, big-endian over 8 bytes. -/
def sha256Pad (msg : List Nat) : List Nat :=
  let L := msg.length
  let zeros := (64 + 55 - (L % 64)) % 64
  msg ++ 128 :: List.replicate zeros 0 ++ be64 (8 * L)

/-- Collect consecutive groups of four bytes into big-endian 32-bit
words. -/
def bytesToWords : List Nat → List Nat
  | b0 :: b1 :: b2 :: b3 :: rest =>
    ((b0 <<< 24) + (b1 <<< 16) + (b2 <<< 8) + b3) :: bytesToWords rest
  | _ => []

/-- Extend the sixteen block words with the SHA-256 message schedule;
the accumulator holds the words in reverse so that the four taps sit at
fixed offsets from the front.  Structural recursion on the remaining
count keeps the definition kernel-reducible. -/
def sha256ExtendRev (rev : List Nat) : Nat → List Nat
  | 0 => rev
  | fuel + 1 =>
    let w15 := rev.getD 14 0
    let w2 := rev.getD 1 0
    let s0 := (rotr32 7 w15) ^^^ (rotr32 18 w15) ^^^ (w15 >>> 3)
    let s1 := (rotr32 17 w2) ^^^ (rotr32 19 w2) ^^^ (w2 >>> 10)
    let w := (rev.getD 15 0 + s0 + rev.getD 6 0 + s1) % 4294967296
    sha256ExtendRev (w :: rev) fuel

/-- One SHA-256 compression round. -/
def sha256Round (st : Sha256State) (kw : Nat × Nat) : Sha256State :=
  let S1 := (rotr32 6 st.e) ^^^ (rotr32 11 st.e) ^^^ (rotr32 25 st.e)
  let ch := (st.e &&& st.f) ^^^ ((st.e ^^^ 4294967295) &&& st.g)
  let temp1 := (st.h + S1 + ch + kw.1 + kw.2) % 4294967296
  let S0 := (rotr32 2 st.a) ^^^ (rotr32 13 st.a) ^^^ (rotr32 22 st.a)
  let maj := (st.a &&& st.b) ^^^ (st.a &&& st.c) ^^^ (st.b &&& st.c)
  let temp2 := (S0 + maj) % 4294967296
  ⟨(temp1 + temp2) % 4294967296, st.a, st.b, st.c,
   (st.d + temp1) % 4294967296, st.e, st.f, st.g⟩

/-- Compress one 64-byte block into the running state. -/
def sha256Block (st : Sha256State) (block : List Nat) : Sha256State :=
  let ws := (sha256ExtendRev (bytesToWords block).reverse 48).reverse
  let r := (sha256K.zip ws).foldl sha256Round st
  ⟨(st.a + r.a) % 4294967296, (st.b + r.b) % 4294967296,
   (st.c + r.c) % 4294967296, (st.d + r.d) % 4294967296,
   (st.e + r.e) % 4294967296, (st.f + r.f) % 4294967296,
   (st.g + r.g) % 4294967296, (st.h + r.h) % 4294967296⟩

/-- Fold the compression over the 64-byte chunks of the padded message;
`fuel` bounds the number of blocks (structural recursion so the kernel
can evaluate it). -/
def sha256Chunks (st : Sha256State) (bytes : List Nat) : Nat → Sha256State
  | 0 => st
  | fuel + 1 =>
    if bytes.isEmpty then st
    else sha256Chunks (sha256Block st (bytes.take 64)) (bytes.drop 64) fuel

/-- Big-endian bytes of one 32-bit word. -/
def be32 (n : Nat) : List Nat :=
  [(n >>> 24) % 256, (n >>> 16) % 256, (n >>> 8) % 256, n % 256]

/-- `hashlib.sha256(bytes).digest()`: the 32 digest bytes. -/
def sha256Digest (msg : List Nat) : List Nat :=
  let padded := sha256Pad msg
  let st := sha256Chunks sha256Init padded padded.length
  be32 st.a ++ be32 st.b ++ be32 st.c ++ be32 st.d ++
    be32 st.e ++ be32 st.f ++ be32 st.g ++ be32 st.h

/-- Lowercase hex rendering of a byte list (`hexdigest`). -/
def hexOfBytes (bs : List Nat) : PyStr :=
  bs.flatMap (fun b => [hexDigit ((b / 16) % 16), hexDigit (b % 16)])

/-- `hashlib.sha256(s.encode()).hexdigest()` for a Python string `s`. -/
def sha256HexStr (s : PyStr) : PyStr :=
  hexOfBytes (sha256Digest (utf8Bytes s))

/-- A Python `datetime` (always with `tzinfo=timezone.utc` in this
model, so the timezone is dropped). -/
structure PyDateTime where
  year : Nat
  month : Nat
  day : Nat
  hour : Nat
  minute : Nat
  second : Nat
  microsecond : Nat
deriving DecidableEq, Repr

/-- `<` on aware datetimes with equal timezones: lexicographic on the
components. -/
def PyDateTime.blt (x y : PyDateTime) : Bool :=
  if x.year ≠ y.year then x.year < y.year
  else if x.month ≠ y.month then x.month < y.month
  else if x.day ≠ y.day then x.day < y.day
  else if x.hour ≠ y.hour then x.hour < y.hour
  else if x.minute ≠ y.minute then x.minute < y.minute
  else if x.second ≠ y.second then x.second < y.second
  else x.microsecond < y.microsecond

/-- Zero-padded decimal rendering. -/
def padDigits (width n : Nat) : PyStr :=
  let d := Nat.toDigits 10 n
  List.replicate (width - d.length) '0' ++ d

/-- `datetime.isoformat()` for a UTC-aware datetime: the fractional
part is printed over six digits and omitted when the microsecond field
is zero, and the offset renders as `+00:00`. -/
def PyDateTime.isoformatUtc (t : PyDateTime) : PyStr :=
  padDigits 4 t.year ++ ['-'] ++ padDigits 2 t.month ++ ['-'] ++
    padDigits 2 t.day ++ ['T'] ++ padDigits 2 t.hour ++ [':'] ++
    padDigits 2 t.minute ++ [':'] ++ padDigits 2 t.second ++
    (if t.microsecond = 0 then [] else '.' :: padDigits 6 t.microsecond) ++
    "+00:00".data

/-- Numeric value of a decimal digit character. -/
def digitVal (c : Char) : Nat := c.toNat - 48

/-- `%Y` of `_strptime`: exactly four digits. -/
def parseYear4 : PyStr → Option (Nat × PyStr)
  | c1 :: c2 :: c3 :: c4 :: rest =>
    if c1.isDigit ∧ c2.isDigit ∧ c3.isDigit ∧ c4.isDigit then
      some (digitVal c1 * 1000 + digitVal c2 * 100 + digitVal c3 * 10 +
        digitVal c4, rest)
    else none
  | _ => none

/-- A two-digit-preferred numeric directive of `_strptime`: the regex
alternations first try the two-digit forms accepted by `two`, then a
single digit accepted by `one` (the following character being a
non-digit literal, no further backtracking can help). -/
def parseTwoOne (two : Char → Char → Bool) (one : Char → Bool) :
    PyStr → Option (Nat × PyStr)
  | c1 :: c2 :: rest =>
    if two c1 c2 then some (digitVal c1 * 10 + digitVal c2, rest)
    else if one c1 then some (digitVal c1, c2 :: rest)
    else none
  | [c1] => if one c1 then some (digitVal c1, []) else none
  | [] => none

/-- `%m`: `1[0-2]|0[1-9]|[1-9]`. -/
def parseMonth : PyStr → Option (Nat × PyStr) :=
  parseTwoOne
    (fun a b => (a = '0' ∧ b.isDigit ∧ b ≠ '0') ∨
      (a = '1' ∧ (b = '0' ∨ b = '1' ∨ b = '2')))
    (fun c => c.isDigit ∧ c ≠ '0')

/-- `%d`: `3[01]|[12]\d|0[1-9]|[1-9]`. -/
def parseDay : PyStr → Option (Nat × PyStr) :=
  parseTwoOne
    (fun a b => (a = '3' ∧ (b = '0' ∨ b = '1')) ∨
      ((a = '1' ∨ a = '2') ∧ b.isDigit) ∨
      (a = '0' ∧ b.isDigit ∧ b ≠ '0'))
    (fun c => c.isDigit ∧ c ≠ '0')

/-- `%H`: `2[0-3]|[0-1]\d|\d`. -/
def parseHour : PyStr → Option (Nat × PyStr) :=
  parseTwoOne
    (fun a b => (a = '2' ∧ (b = '0' ∨ b = '1' ∨ b = '2' ∨ b = '3')) ∨
      ((a = '0' ∨ a = '1') ∧ b.isDigit))
    (fun c => c.isDigit)

/-- `%M`: `[0-5]\d|\d`. -/
def parseMinute : PyStr → Option (Nat × PyStr) :=
  parseTwoOne
    (fun a b => (a.isDigit ∧ a.toNat ≤ 53) ∧ b.isDigit)
    (fun c => c.isDigit)

/-- `%S`: `6[0-1]|[0-5]\d|\d` (61 admits leap seconds at the regex
level; the `datetime` constructor then rejects 60 and 61). -/
def parseSecond : PyStr → Option (Nat × PyStr) :=
  parseTwoOne
    (fun a b => (a = '6' ∧ (b = '0' ∨ b = '1')) ∨
      ((a.isDigit ∧ a.toNat ≤ 53) ∧ b.isDigit))
    (fun c => c.isDigit)

/-- Take up to `fuel` leading decimal digits. -/
def takeDigits : Nat → PyStr → List Char × PyStr
  | 0, s => ([], s)
  | _ + 1, [] => ([], [])
  | fuel + 1, c :: rest =>
    if c.isDigit then
      let (ds, r) := takeDigits fuel rest
      (c :: ds, r)
    else ([], c :: rest)

/-- `%f`: `[0-9]{1,6}`, greedy; `_strptime` right-pads the digits with
zeros to six places to form the microsecond count. -/
def parseFraction (s : PyStr) : Option (Nat × PyStr) :=
  let (ds, rest) := takeDigits 6 s
  if ds.isEmpty then none
  else some ((ds.foldl (fun a c => a * 10 + digitVal c) 0) *
    10 ^ (6 - ds.length), rest)

/-- An exact literal character of the format string. -/
def parseLitC (c : Char) : PyStr → Option PyStr
  | x :: rest => if x = c then some rest else none
  | [] => none

/-- A literal letter, case-insensitively (`_strptime` compiles its
regex with `IGNORECASE`). -/
def parseLitCI (c : Char) : PyStr → Option PyStr
  | x :: rest => if x = c ∨ x = c.toUpper ∨ x = c.toLower then some rest else none
  | [] => none

/-- Gregorian leap year. -/
def isLeapYear (y : Nat) : Bool := y % 4 = 0 ∧ (y % 100 ≠ 0 ∨ y % 400 = 0)

/-- Days in a month, as checked by the `datetime` constructor. -/
def daysInMonth (y m : Nat) : Nat :=
  if m = 2 then (if isLeapYear y then 29 else 28)
  else if m = 4 ∨ m = 6 ∨ m = 9 ∨ m = 11 then 30
  else 31

/-- `datetime.strptime(s, "%Y-%m-%dT%H:%M:%S.%fZ")` (with the result's
`tzinfo` replaced by UTC, which does not touch the components): the
directive-by-directive match of CPython `_strptime`, requiring the
whole string to be consumed, followed by the range checks of the
`datetime` constructor (`MINYEAR`, day of month, seconds below 60).
`none` models the raised `ValueError`. -/
def strptimeYmdHMSfZ (s : PyStr) : Option PyDateTime := do
  let (y, s) ← parseYear4 s
  let s ← parseLitC '-' s
  let (mo, s) ← parseMonth s
  let s ← parseLitC '-' s
  let (d, s) ← parseDay s
  let s ← parseLitCI 'T' s
  let (h, s) ← parseHour s
  let s ← parseLitC ':' s
  let (mi, s) ← parseMinute s
  let s ← parseLitC ':' s
  let (sec, s) ← parseSecond s
  let s ← parseLitC '.' s
  let (us, s) ← parseFraction s
  let s ← parseLitCI 'Z' s
  if s = [] ∧ 1 ≤ y ∧ d ≤ daysInMonth y mo ∧ sec ≤ 59 then
    some ⟨y, mo, d, h, mi, sec, us⟩
  else none

/-- The typed `AlertDto` record, restricted to the fields the
validators derive or read.  The remaining declared fields
(`environment`, `service`, `labels`, ...) and the `Extra.allow`
passthrough of unknown keys are plain defaulted pass-throughs with no
validator and no reader inside this module, and are omitted. -/
structure AlertDto where
  id : PyStr
  name : PyStr
  status : AlertStatus
  severity : AlertSeverity
  lastReceived : PyStr
  fingerprint : PyStr
  deleted : Bool
  dismissUntil : Option PyStr
  dismissed : Bool
deriving DecidableEq, Repr

/-- The severity coercion of `set_default_values`: `isinstance(int)`
(which in Python includes `bool`) goes through `from_number`, anything
else through the `AlertSeverity(...)` enum-by-value call, which accepts
a member's value string or an already-constructed member and raises
`ValueError` (here `none`) otherwise. -/
def severityCoerce : Option JValue → Option AlertSeverity
  | some (.jint n) => AlertSeverity.from_number n
  | some (.jbool b) => AlertSeverity.from_number (if b then 1 else 0)
  | some (.jstr s) => AlertSeverity.fromValue s
  | some (.jsev v) => some v
  | _ => none

/-- The status coercion of `set_default_values`: the `AlertStatus(...)`
enum-by-value call. -/
def statusCoerce : Option JValue → Option AlertStatus
  | some (.jstr s) => AlertStatus.fromValue s
  | some (.jstat v) => some v
  | _ => none

/-- `AlertDto.set_default_values` (pre-typing root validator): coerce
`severity` with an `info` fallback plus warning, coerce `status` with
a `firing` fallback plus warning, read `values["lastReceived"]` — a
`KeyError` escapes if the key is absent — and drop the `assignees` and
`deletedAt` keys.  The assignee lookup of source lines 221-226 only
writes the `assignee` passthrough field (not modelled, read by
nothing here) and is elided. -/
def set_default_values (values : Values) : Except PyErr (Values × List Warning) :=
  let sevRaw := values.get kSeverity
  let sevStep : Values × List Warning :=
    match severityCoerce sevRaw with
    | some v => (values.set kSeverity (.jsev v), [])
    | none => (values.set kSeverity (.jsev .info), [.invalidSeverity sevRaw])
  let stRaw := sevStep.1.get kStatus
  let stStep : Values × List Warning :=
    match statusCoerce stRaw with
    | some v => (sevStep.1.set kStatus (.jstat v), sevStep.2)
    | none => (sevStep.1.set kStatus (.jstat .firing),
        sevStep.2 ++ [.invalidStatus stRaw])
  match stStep.1.get kLastReceived with
  | none => .error (.keyError kLastReceived)
  | some _ => .ok ((stStep.1.pop kAssignees).pop kDeletedAt, stStep.2)

/-- Pydantic v1 validation of a required `str` field: strings pass,
numbers (including `bool`, an `int` subclass) are stringified, a
missing value is a hard "field required" error, anything else a type
error. -/
def validateStrRequired (v : Option JValue) (field : PyStr) : Except PyErr PyStr :=
  match v with
  | none => .error (.missingField field)
  | some (.jstr s) => .ok s
  | some (.jint n) => .ok (toString n).data
  | some (.jbool b) => .ok (if b then "True".data else "False".data)
  | some _ => .error (.fieldTypeError field)

/-- Pydantic v1 validation of an `Optional[str]` field. -/
def validateOptStr (v : Option JValue) (field : PyStr) : Except PyErr (Option PyStr) :=
  match v with
  | none => .ok none
  | some .jnull => .ok none
  | some (.jstr s) => .ok (some s)
  | some (.jint n) => .ok (some (toString n).data)
  | some (.jbool b) => .ok (some (if b then "True".data else "False".data))
  | some _ => .error (.fieldTypeError field)

/-- Pydantic v1 validation of a `bool` field: booleans pass, the ints
0/1 and the usual string spellings coerce, everything else errors. -/
def validateBool (v : JValue) (field : PyStr) : Except PyErr Bool :=
  match v with
  | .jbool b => .ok b
  | .jint 0 => .ok false
  | .jint 1 => .ok true
  | .jstr s =>
    let l := s.map Char.toLower
    if l = "0".data ∨ l = "off".data ∨ l = "f".data ∨ l = "false".data ∨
        l = "n".data ∨ l = "no".data then .ok false
    else if l = "1".data ∨ l = "on".data ∨ l = "t".data ∨ l = "true".data ∨
        l = "y".data ∨ l = "yes".data then .ok true
    else .error (.fieldTypeError field)
  | _ => .error (.fieldTypeError field)

/-- Pydantic v1 validation of the `status : AlertStatus` field: the
`AlertStatus(...)` member lookup. -/
def validateStatusField (v : Option JValue) : Except PyErr AlertStatus :=
  match v with
  | some (.jstat st) => .ok st
  | some (.jstr s) =>
    match AlertStatus.fromValue s with
    | some st => .ok st
    | none => .error (.fieldTypeError kStatus)
  | some _ => .error (.fieldTypeError kStatus)
  | none => .error (.missingField kStatus)

/-- Pydantic v1 validation of the `severity : AlertSeverity` field. -/
def validateSeverityField (v : Option JValue) : Except PyErr AlertSeverity :=
  match v with
  | some (.jsev sv) => .ok sv
  | some (.jstr s) =>
    match AlertSeverity.fromValue s with
    | some sv => .ok sv
    | none => .error (.fieldTypeError kSeverity)
  | some _ => .error (.fieldTypeError kSeverity)
  | none => .error (.missingField kSeverity)

/-- `AlertDto.assign_fingerprint_if_none`: `None` (raw `null` or the
field's default) hashes the name, or — when the name entry of the
already-validated `values` dict is missing or falsy — hashes
`json.dumps(values)` after emitting a warning; an explicit string is
truncated to its first 255 characters, unhashed.  `json.dumps` has no
`default=` handler here, so a non-serializable value in `values`
raises `TypeError`; slicing a non-string explicit fingerprint also
raises `TypeError`. -/
def assign_fingerprint_if_none (fingerprint : Option JValue) (values : Values) :
    Except PyErr (PyStr × List Warning) :=
  match fingerprint with
  | none | some .jnull =>
    let fpPayload := values.get kName
    if (fpPayload.getD .jnull).truthy then
      match fpPayload with
      | some (.jstr s) => .ok (sha256HexStr s, [])
      | _ => .error .typeError
    else
      match dumpsValues values with
      | none => .error .typeError
      | some s => .ok (sha256HexStr s, [.noNameForFingerprint])
  | some (.jstr f) => .ok (f.take 255, [])
  | some _ => .error .typeError

/-- `AlertDto.validate_deleted`: booleans pass through; a raw list
would resolve to a membership test of the validated `lastReceived`
(unrepresentable here, see `JValue`); any other shape falls through to
the function's implicit `None`. -/
def validate_deleted (deleted : JValue) (_values : Values) : JValue :=
  match deleted with
  | .jbool b => .jbool b
  | _ => .jnull

/-- `AlertDto.validate_last_received`: a falsy raw value is replaced by
`datetime.now(timezone.utc).isoformat()`. -/
def validate_last_received (last_received : JValue) (now : PyDateTime) : JValue :=
  if !last_received.truthy then .jstr now.isoformatUtc else last_received

/-- `AlertDto.validate_dismissed`: lowercased string comparison against
`"true"` normalizes a string; a falsy normalized value returns
unchanged; otherwise an absent/falsy or `"forever"` `dismissUntil`
(read from the already-validated `values`) keeps the truthy value, and
a present one is `strptime`-parsed (a `ValueError` aborts) and compared
strictly against the current UTC instant. -/
def validate_dismissed (dismissed : JValue) (values : Values) (now : PyDateTime) :
    Except PyErr JValue :=
  let dismissed :=
    match dismissed with
    | .jstr s => JValue.jbool (s.map Char.toLower = trueLit)
    | v => v
  if !dismissed.truthy then .ok dismissed
  else
    let dismissUntil := (values.get kDismissUntil).getD .jnull
    if !dismissUntil.truthy ∨ dismissUntil = .jstr foreverLit then .ok dismissed
    else
      match dismissUntil with
      | .jstr s =>
        match strptimeYmdHMSfZ s with
        | none => .error (.valueError kDismissed)
        | some dt => .ok (.jbool (PyDateTime.blt now dt))
      | _ => .error .typeError

/-- `AlertDto.validate_status` (post-typing root validator): a
dismissed record's status is overwritten to `suppressed`. -/
def validate_status (r : AlertDto) : AlertDto :=
  if r.dismissed then { r with status := .suppressed } else r

/-- Encode a validated `Optional[str]` back into the validated-fields
dict. -/
def optStrToJ : Option PyStr → JValue
  | none => .jnull
  | some s => .jstr s

/-- The validated-fields dict right before the `fingerprint` validator
runs: the five modelled earlier fields, with the enum fields stored as
their value strings because of `use_enum_values`. -/
def validatedVals5 (idv namev : PyStr) (st : AlertStatus) (sv : AlertSeverity)
    (lr : PyStr) : Values :=
  (((((Values.set [] kId (.jstr idv)).set
    kName (.jstr namev)).set
    kStatus (.jstr st.value)).set
    kSeverity (.jstr sv.value)).set
    kLastReceived (.jstr lr))

/-- The full pydantic-v1 construction of an `AlertDto` from a raw
payload mapping: the pre root validator, then the fields in
declaration order (each validator reading the dict of already-validated
fields, stored — because of `use_enum_values` — with enum members
replaced by their value strings), then the post root validator.
Pydantic collects per-field errors before raising one
`ValidationError`; this model short-circuits at the first error, which
agrees on whether construction aborts and on the constructed record. -/
def validate_model (raw : Values) (now : PyDateTime) :
    Except PyErr (AlertDto × List Warning) :=
  match set_default_values raw with
  | .error e => .error e
  | .ok (values, w1) =>
  match validateStrRequired (values.get kId) kId with
  | .error e => .error e
  | .ok idv =>
  match validateStrRequired (values.get kName) kName with
  | .error e => .error e
  | .ok namev =>
  match validateStatusField (values.get kStatus) with
  | .error e => .error e
  | .ok statusv =>
  match validateSeverityField (values.get kSeverity) with
  | .error e => .error e
  | .ok severityv =>
  match validateStrRequired
      (some (validate_last_received ((values.get kLastReceived).getD .jnull) now))
      kLastReceived with
  | .error e => .error e
  | .ok lastReceivedv =>
  let vals := validatedVals5 idv namev statusv severityv lastReceivedv
  match assign_fingerprint_if_none (values.get kFingerprint) vals with
  | .error e => .error e
  | .ok (fingerprintv, w2) =>
  let vals := vals.set kFingerprint (.jstr fingerprintv)
  match validateBool
      (validate_deleted ((values.get kDeleted).getD (.jbool false)) vals)
      kDeleted with
  | .error e => .error e
  | .ok deletedv =>
  let vals := vals.set kDeleted (.jbool deletedv)
  match validateOptStr (values.get kDismissUntil) kDismissUntil with
  | .error e => .error e
  | .ok dismissUntilv =>
  let vals := vals.set kDismissUntil (optStrToJ dismissUntilv)
  match validate_dismissed ((values.get kDismissed).getD (.jbool false)) vals now with
  | .error e => .error e
  | .ok dJ =>
  match validateBool dJ kDismissed with
  | .error e => .error e
  | .ok dismissedv =>
  .ok (validate_status
    { id := idv, name := namev, status := statusv, severity := severityv,
      lastReceived := lastReceivedv, fingerprint := fingerprintv,
      deleted := deletedv, dismissUntil := dismissUntilv,
      dismissed := dismissedv }, w1 ++ w2)

/-- `Except.isOk` helper (does the computation return a value?). -/
def exceptIsOk {ε α : Type} : Except ε α → Bool
  | .ok _ => true
  | .error _ => false

/-- Reading back the key just written. -/
theorem Values.get_set_self (vs : Values) (k : PyStr) (v : JValue) :
    (vs.set k v).get k = some v := by
  induction vs with
  | nil => simp [Values.set, Values.get]
  | cons hd t ih =>
    obtain ⟨k', v'⟩ := hd
    by_cases hk : k' = k
    · simp [Values.set, hk, Values.get]
    · simp [Values.set, hk, Values.get, ih]

/-- Writing one key does not disturb reads of another. -/
theorem Values.get_set_ne (vs : Values) (k k2 : PyStr) (v : JValue)
    (hne : k2 ≠ k) : (vs.set k2 v).get k = vs.get k := by
  induction vs with
  | nil => simp [Values.set, Values.get, hne]
  | cons hd t ih =>
    obtain ⟨k', v'⟩ := hd
    by_cases hk : k' = k2
    · subst hk
      simp [Values.set, Values.get, hne]
    · simp [Values.set, hk, Values.get, ih]

/-- Popping one key does not disturb reads of another. -/
theorem Values.get_pop_ne (vs : Values) (k k2 : PyStr)
    (hne : k2 ≠ k) : (vs.pop k2).get k = vs.get k := by
  induction vs with
  | nil => simp [Values.pop]
  | cons hd t ih =>
    obtain ⟨k', v'⟩ := hd
    by_cases hk : k' = k2
    · subst hk
      simp [Values.pop, Values.get, hne, ih]
    · simp [Values.pop, hk, Values.get, ih]

/-- Every successful run of the pre root validator produces the input
dict with some severity and status members substituted and the
`assignees` / `deletedAt` keys popped. -/
theorem set_default_values_shape (p : Values) (values : Values) (w : List Warning)
    (h : set_default_values p = .ok (values, w)) :
    ∃ sv st, values =
      (((p.set kSeverity (.jsev sv)).set kStatus (.jstat st)).pop
        kAssignees).pop kDeletedAt := by
  unfold set_default_values at h
  cases hs : severityCoerce (Values.get p kSeverity) with
  | none =>
    simp only [hs] at h
    cases hst : statusCoerce
        (Values.get (p.set kSeverity (.jsev .info)) kStatus) with
    | none =>
      simp only [hst] at h
      cases hlr : Values.get
          ((p.set kSeverity (.jsev .info)).set kStatus (.jstat .firing))
          kLastReceived with
      | none =>
        simp only [hlr] at h
        exact Except.noConfusion h
      | some lv =>
        simp only [hlr, Except.ok.injEq, Prod.mk.injEq] at h
        exact ⟨.info, .firing, h.1.symm⟩
    | some st =>
      simp only [hst] at h
      cases hlr : Values.get
          ((p.set kSeverity (.jsev .info)).set kStatus (.jstat st))
          kLastReceived with
      | none =>
        simp only [hlr] at h
        exact Except.noConfusion h
      | some lv =>
        simp only [hlr, Except.ok.injEq, Prod.mk.injEq] at h
        exact ⟨.info, st, h.1.symm⟩
  | some sv =>
    simp only [hs] at h
    cases hst : statusCoerce
        (Values.get (p.set kSeverity (.jsev sv)) kStatus) with
    | none =>
      simp only [hst] at h
      cases hlr : Values.get
          ((p.set kSeverity (.jsev sv)).set kStatus (.jstat .firing))
          kLastReceived with
      | none =>
        simp only [hlr] at h
        exact Except.noConfusion h
      | some lv =>
        simp only [hlr, Except.ok.injEq, Prod.mk.injEq] at h
        exact ⟨sv, .firing, h.1.symm⟩
    | some st =>
      simp only [hst] at h
      cases hlr : Values.get
          ((p.set kSeverity (.jsev sv)).set kStatus (.jstat st))
          kLastReceived with
      | none =>
        simp only [hlr] at h
        exact Except.noConfusion h
      | some lv =>
        simp only [hlr, Except.ok.injEq, Prod.mk.injEq] at h
        exact ⟨sv, st, h.1.symm⟩

/-- The pre root validator leaves every key other than `severity`,
`status`, `assignees`, `deletedAt` untouched. -/
theorem set_default_values_get (p : Values) (values : Values) (w : List Warning)
    (k : PyStr) (h : set_default_values p = .ok (values, w))
    (h1 : k ≠ kSeverity) (h2 : k ≠ kStatus) (h3 : k ≠ kAssignees)
    (h4 : k ≠ kDeletedAt) : values.get k = p.get k := by
  obtain ⟨sv, st, rfl⟩ := set_default_values_shape p values w h
  rw [Values.get_pop_ne _ _ _ (Ne.symm h4), Values.get_pop_ne _ _ _ (Ne.symm h3),
    Values.get_set_ne _ _ _ _ (Ne.symm h2), Values.get_set_ne _ _ _ _ (Ne.symm h1)]

/-- Inversion of a successful `validate_model` run: the full trace of
validator results it must have gone through, ending in the post root
validator applied to the typed record. -/
theorem validate_model_ok_inv (raw : Values) (now : PyDateTime) (r : AlertDto)
    (ws : List Warning) (h : validate_model raw now = .ok (r, ws)) :
    ∃ values w1 idv namev statusv severityv lastReceivedv fingerprintv w2
      deletedv dismissUntilv dJ dismissedv,
      set_default_values raw = .ok (values, w1) ∧
      validateStrRequired (values.get kId) kId = .ok idv ∧
      validateStrRequired (values.get kName) kName = .ok namev ∧
      validateStatusField (values.get kStatus) = .ok statusv ∧
      validateSeverityField (values.get kSeverity) = .ok severityv ∧
      validateStrRequired (some (validate_last_received
        ((values.get kLastReceived).getD .jnull) now)) kLastReceived =
        .ok lastReceivedv ∧
      assign_fingerprint_if_none (values.get kFingerprint)
        (validatedVals5 idv namev statusv severityv lastReceivedv) =
        .ok (fingerprintv, w2) ∧
      validateBool (validate_deleted ((values.get kDeleted).getD (.jbool false))
        ((validatedVals5 idv namev statusv severityv lastReceivedv).set
          kFingerprint (.jstr fingerprintv))) kDeleted = .ok deletedv ∧
      validateOptStr (values.get kDismissUntil) kDismissUntil = .ok dismissUntilv ∧
      validate_dismissed ((values.get kDismissed).getD (.jbool false))
        ((((validatedVals5 idv namev statusv severityv lastReceivedv).set
          kFingerprint (.jstr fingerprintv)).set kDeleted (.jbool deletedv)).set
          kDismissUntil (optStrToJ dismissUntilv)) now = .ok dJ ∧
      validateBool dJ kDismissed = .ok dismissedv ∧
      r = validate_status
        { id := idv, name := namev, status := statusv,
          severity := severityv, lastReceived := lastReceivedv,
          fingerprint := fingerprintv, deleted := deletedv,
          dismissUntil := dismissUntilv, dismissed := dismissedv } ∧
      ws = w1 ++ w2 := by
  unfold validate_model at h
  cases h0 : set_default_values raw with
  | error e =>
    simp only [h0] at h
    exact Except.noConfusion h
  | ok vw =>
  obtain ⟨values, w1⟩ := vw
  simp only [h0] at h
  cases h1 : validateStrRequired (Values.get values kId) kId with
  | error e =>
    simp only [h1] at h
    exact Except.noConfusion h
  | ok idv =>
  simp only [h1] at h
  cases h2 : validateStrRequired (Values.get values kName) kName with
  | error e =>
    simp only [h2] at h
    exact Except.noConfusion h
  | ok namev =>
  simp only [h2] at h
  cases h3 : validateStatusField (Values.get values kStatus) with
  | error e =>
    simp only [h3] at h
    exact Except.noConfusion h
  | ok statusv =>
  simp only [h3] at h
  cases h4 : validateSeverityField (Values.get values kSeverity) with
  | error e =>
    simp only [h4] at h
    exact Except.noConfusion h
  | ok severityv =>
  simp only [h4] at h
  cases h5 : validateStrRequired (some (validate_last_received
      ((Values.get values kLastReceived).getD .jnull) now)) kLastReceived with
  | error e =>
    simp only [h5] at h
    exact Except.noConfusion h
  | ok lastReceivedv =>
  simp only [h5] at h
  cases h6 : assign_fingerprint_if_none (Values.get values kFingerprint)
      (validatedVals5 idv namev statusv severityv lastReceivedv) with
  | error e =>
    simp only [h6] at h
    exact Except.noConfusion h
  | ok fw =>
  obtain ⟨fingerprintv, w2⟩ := fw
  simp only [h6] at h
  cases h7 : validateBool (validate_deleted
      ((Values.get values kDeleted).getD (.jbool false))
      ((validatedVals5 idv namev statusv severityv lastReceivedv).set
        kFingerprint (.jstr fingerprintv))) kDeleted with
  | error e =>
    simp only [h7] at h
    exact Except.noConfusion h
  | ok deletedv =>
  simp only [h7] at h
  cases h8 : validateOptStr (Values.get values kDismissUntil) kDismissUntil with
  | error e =>
    simp only [h8] at h
    exact Except.noConfusion h
  | ok dismissUntilv =>
  simp only [h8] at h
  cases h9 : validate_dismissed ((Values.get values kDismissed).getD (.jbool false))
      ((((validatedVals5 idv namev statusv severityv lastReceivedv).set
        kFingerprint (.jstr fingerprintv)).set kDeleted (.jbool deletedv)).set
        kDismissUntil (optStrToJ dismissUntilv)) now with
  | error e =>
    simp only [h9] at h
    exact Except.noConfusion h
  | ok dJ =>
  simp only [h9] at h
  cases h10 : validateBool dJ kDismissed with
  | error e =>
    simp only [h10] at h
    exact Except.noConfusion h
  | ok dismissedv =>
  simp only [h10, Except.ok.injEq, Prod.mk.injEq] at h
  exact ⟨values, w1, idv, namev, statusv, severityv, lastReceivedv, fingerprintv,
    w2, deletedv, dismissUntilv, dJ, dismissedv, rfl, h1, h2, h3, h4, h5, h6,
    h7, h8, h9, h10, h.1.symm, h.2.symm⟩

/-- The post root validator never touches the `dismissed` field. -/
theorem validate_status_dismissed (r : AlertDto) :
    (validate_status r).dismissed = r.dismissed := by
  unfold validate_status
  split <;> rfl

/-- The post root validator never touches the `fingerprint` field. -/
theorem validate_status_fingerprint (r : AlertDto) :
    (validate_status r).fingerprint = r.fingerprint := by
  unfold validate_status
  split <;> rfl

/-- The name entry of the validated-fields dict before the fingerprint
validator. -/
theorem validatedVals5_get_name (idv namev : PyStr) (st : AlertStatus)
    (sv : AlertSeverity) (lr : PyStr) :
    (validatedVals5 idv namev st sv lr).get kName = some (.jstr namev) := by
  unfold validatedVals5
  rw [Values.get_set_ne _ _ _ _ (by decide), Values.get_set_ne _ _ _ _ (by decide),
    Values.get_set_ne _ _ _ _ (by decide), Values.get_set_self]

/-- The fixed UTC instant used by the concrete witnesses below as "the
current time". -/
def nowTest : PyDateTime := ⟨2024, 6, 15, 12, 0, 0, 0⟩

/-- Concrete strings used by witnesses and counterexamples. -/
def lit1 : PyStr := "1".data

/-- The string "2". -/
def lit2 : PyStr := "2".data

/-- The string "3". -/
def lit3 : PyStr := "3".data

/-- The string "X". -/
def litX : PyStr := "X".data

/-- The string "nonexistent" (an invalid severity). -/
def litNonexistent : PyStr := "nonexistent".data

/-- The string "bogus" (an invalid status). -/
def litBogus : PyStr := "bogus".data

/-- The string "firing". -/
def litFiring : PyStr := "firing".data

/-- The string "Disk full". -/
def litDiskFull : PyStr := "Disk full".data

/-- A well-formed aware ISO timestamp used as `lastReceived`. -/
def litLR : PyStr := "2024-01-01T00:00:00+00:00".data

/-- A `dismissUntil` in the future of `nowTest`, in the strict format. -/
def litFutureTs : PyStr := "2099-01-01T00:00:00.000000Z".data

/-- A `dismissUntil` in the past of `nowTest`, in the strict format. -/
def litPastTs : PyStr := "2000-01-01T00:00:00.000000Z".data

/-- A future `dismissUntil` with a one-digit fraction: not the
fixed-width `YYYY-MM-DDTHH:MM:SS.ffffffZ` shape, yet accepted by
`strptime`. -/
def litShortFrac : PyStr := "2099-01-01T00:00:00.5Z".data

/-- A `dismissUntil` that `strptime` rejects. -/
def litBadTs : PyStr := "not-a-timestamp".data

/-- The string "TRUE" (case-insensitive true). -/
def litTRUE : PyStr := "TRUE".data

/-- Witness payload for the dismissal/suppression claims: dismissed
"true" with a future `dismissUntil`. -/
def pDismissFuture : Values :=
  [(kId, .jstr lit2), (kName, .jstr litX), (kStatus, .jstr litFiring),
   (kDismissed, .jstr trueLit), (kDismissUntil, .jstr litFutureTs),
   (kLastReceived, .jstr litLR)]

/-- Payload with no `lastReceived` key at all. -/
def pNoLastReceived : Values :=
  [(kId, .jstr lit1), (kName, .jstr litX)]

/-- Payload with an empty `lastReceived`. -/
def pEmptyLastReceived : Values :=
  [(kId, .jstr lit1), (kName, .jstr litX), (kLastReceived, .jstr [])]

/-- The spec's scenario payload: name "Disk full", numeric severity. -/
def pDiskFull : Values :=
  [(kId, .jstr lit1), (kName, .jstr litDiskFull), (kSeverity, .jint 5),
   (kStatus, .jstr litFiring), (kLastReceived, .jstr litLR)]

/-- A second payload with the same name and no explicit fingerprint but
otherwise different fields. -/
def pDiskFull2 : Values :=
  [(kId, .jstr lit2), (kName, .jstr litDiskFull),
   (kLastReceived, .jstr litFutureTs)]

/-- The degraded-defaults payload shape: `id`, `name`, `lastReceived`
strings plus arbitrary raw `severity` and `status`. -/
def degradedPayload (i nm lr : PyStr) (sv st : JValue) : Values :=
  [(kId, .jstr i), (kName, .jstr nm), (kLastReceived, .jstr lr),
   (kSeverity, sv), (kStatus, st)]

/-- The three-required-fields payload shape with the `severity` and
`status` keys entirely absent. -/
def minimalPayload (i nm lr : PyStr) : Values :=
  [(kId, .jstr i), (kName, .jstr nm), (kLastReceived, .jstr lr)]

/-- Dismissed-true payload whose `dismissUntil` has a short fraction. -/
def pShortFrac : Values :=
  [(kId, .jstr lit2), (kName, .jstr litX), (kStatus, .jstr litFiring),
   (kDismissed, .jstr trueLit), (kDismissUntil, .jstr litShortFrac),
   (kLastReceived, .jstr litLR)]

/-- Dismissed-true payload whose `dismissUntil` fails `strptime`. -/
def pBadDismissUntil : Values :=
  [(kId, .jstr lit1), (kName, .jstr litX), (kStatus, .jstr litFiring),
   (kDismissed, .jstr trueLit), (kDismissUntil, .jstr litBadTs),
   (kLastReceived, .jstr litLR)]

/-- C1: for every raw payload from which an `AlertDto` is successfully
constructed, if the constructed record's `dismissed` field is true then
its `status` field equals `suppressed`, regardless of the raw status
supplied — the post-typing pass overwrites status after dismissal
resolution and typed construction. -/
theorem alert_dismissed_implies_suppressed (p : Values) (now : PyDateTime)
    (r : AlertDto) (ws : List Warning)
    (h : validate_model p now = .ok (r, ws)) (hd : r.dismissed = true) :
    r.status = .suppressed := by
  obtain ⟨values, w1, idv, namev, statusv, severityv, lrv, fpv, w2, delv, duv,
    dJ, dsv, _, _, _, _, _, _, _, _, _, _, _, hr, _⟩ :=
    validate_model_ok_inv p now r ws h
  subst hr
  by_cases hb : dsv = true
  · simp [validate_status, hb]
  · rw [validate_status_dismissed] at hd
    simp at hd
    exact absurd hd hb

/-- The record produced from `pDismissFuture` at `nowTest`. -/
def rDismissFuture : AlertDto :=
  { id := lit2, name := litX, status := .suppressed, severity := .info,
    lastReceived := litLR, fingerprint := sha256HexStr litX, deleted := false,
    dismissUntil := some litFutureTs, dismissed := true }

/-- Witness for C1 at a concrete input: a dismissed-true payload with a
future `dismissUntil` builds a record that is dismissed and
suppressed. -/
theorem alert_dismissed_implies_suppressed_witness :
    validate_model pDismissFuture nowTest =
      .ok (rDismissFuture, [.invalidSeverity none]) ∧
    rDismissFuture.dismissed = true ∧
    rDismissFuture.status = .suppressed :=
  ⟨by decide, rfl,
   alert_dismissed_implies_suppressed pDismissFuture nowTest rDismissFuture
     [.invalidSeverity none] (by decide) (by decide)⟩

/-- C2 (refuting evidence): the fingerprint resolver *does* throw —
called with no explicit fingerprint on a mapping holding an enum
instance and no usable name, `json.dumps` (which has no `default=`
handler) raises `TypeError`; and an explicit empty-string fingerprint
is returned as the empty string, violating non-emptiness. -/
theorem fingerprint_resolver_raises_on_enum :
    assign_fingerprint_if_none none [(kSeverity, .jsev .info)] =
      .error .typeError ∧
    assign_fingerprint_if_none (some (.jstr [])) [] = .ok ([], []) := by
  decide

/-- C3 (refuting evidence): a payload whose `lastReceived` key is
entirely absent makes `set_default_values` raise `KeyError` instead of
defaulting — construction aborts; whereas a present-but-empty
`lastReceived` is defaulted to the current UTC instant in ISO form as
the claim describes. -/
theorem missing_lastReceived_raises_keyerror :
    validate_model pNoLastReceived nowTest = .error (.keyError kLastReceived) ∧
    (validate_model pEmptyLastReceived nowTest).map (fun x => x.1.lastReceived) =
      .ok nowTest.isoformatUtc := by
  decide

/-- C9: the severity scale is totally ordered by rank with
`critical > high > warning > info > low`; `from_number n` for n in 1..5
yields the severity of rank n (hence the round trip is the identity);
and `from_number 0` fails. -/
theorem severity_order_total_and_from_number :
    (AlertSeverity.pygt .critical .high = true ∧
     AlertSeverity.pygt .high .warning = true ∧
     AlertSeverity.pygt .warning .info = true ∧
     AlertSeverity.pygt .info .low = true) ∧
    (∀ a b : AlertSeverity, a.pyle b = true ∨ b.pyle a = true) ∧
    (∀ a b : AlertSeverity, a.pyle b = true → b.pyle a = true → a = b) ∧
    (∀ a b c : AlertSeverity,
      a.pyle b = true → b.pyle c = true → a.pyle c = true) ∧
    ((AlertSeverity.from_number 1).map AlertSeverity.order = some 1 ∧
     (AlertSeverity.from_number 2).map AlertSeverity.order = some 2 ∧
     (AlertSeverity.from_number 3).map AlertSeverity.order = some 3 ∧
     (AlertSeverity.from_number 4).map AlertSeverity.order = some 4 ∧
     (AlertSeverity.from_number 5).map AlertSeverity.order = some 5) ∧
    ((AlertSeverity.from_number 1).bind
        (fun s => AlertSeverity.from_number (s.order : Int)) =
      AlertSeverity.from_number 1 ∧
     (AlertSeverity.from_number 2).bind
        (fun s => AlertSeverity.from_number (s.order : Int)) =
      AlertSeverity.from_number 2 ∧
     (AlertSeverity.from_number 3).bind
        (fun s => AlertSeverity.from_number (s.order : Int)) =
      AlertSeverity.from_number 3 ∧
     (AlertSeverity.from_number 4).bind
        (fun s => AlertSeverity.from_number (s.order : Int)) =
      AlertSeverity.from_number 4 ∧
     (AlertSeverity.from_number 5).bind
        (fun s => AlertSeverity.from_number (s.order : Int)) =
      AlertSeverity.from_number 5) ∧
    AlertSeverity.from_number 0 = none := by
  decide

/-- Witness for C9: the ordering clauses instantiated at concrete
severities with their hypotheses discharged. -/
theorem severity_order_total_and_from_number_witness :
    (AlertSeverity.pyle .info .critical = true ∨
     AlertSeverity.pyle .critical .info = true) ∧
    AlertSeverity.info = AlertSeverity.info ∧
    AlertSeverity.pyle .low .critical = true :=
  ⟨severity_order_total_and_from_number.2.1 .info .critical,
   severity_order_total_and_from_number.2.2.1 .info .info (by decide) (by decide),
   severity_order_total_and_from_number.2.2.2.1 .low .info .critical
     (by decide) (by decide)⟩

/-- Any successfully constructed record whose payload supplied no
explicit fingerprint and a non-empty string name carries the SHA-256
hex digest of that name as its fingerprint. -/
theorem fingerprint_of_ok (p : Values) (now : PyDateTime) (nm : PyStr)
    (r : AlertDto) (ws : List Warning)
    (hfp : p.get kFingerprint = none) (hnm : p.get kName = some (.jstr nm))
    (hne : nm ≠ []) (h : validate_model p now = .ok (r, ws)) :
    r.fingerprint = sha256HexStr nm := by
  obtain ⟨values, w1, idv, namev, statusv, severityv, lrv, fpv, w2, delv, duv,
    dJ, dsv, h0, h1, h2, h3, h4, h5, h6, h7, h8, h9, h10, hr, hws⟩ :=
    validate_model_ok_inv p now r ws h
  have hvfp : values.get kFingerprint = none := by
    rw [set_default_values_get p values w1 kFingerprint h0 (by decide) (by decide)
      (by decide) (by decide)]
    exact hfp
  have hvnm : values.get kName = some (.jstr nm) := by
    rw [set_default_values_get p values w1 kName h0 (by decide) (by decide)
      (by decide) (by decide)]
    exact hnm
  rw [hvnm] at h2
  have hnamev : namev = nm := by
    simp only [validateStrRequired, Except.ok.injEq] at h2
    exact h2.symm
  subst hnamev
  rw [hvfp] at h6
  simp only [assign_fingerprint_if_none] at h6
  rw [validatedVals5_get_name] at h6
  have hemp : namev.isEmpty = false := by
    cases hcs : namev with
    | nil => exact absurd hcs hne
    | cons c cs => rfl
  simp only [Option.getD_some, JValue.truthy, hemp, Bool.not_false, if_true,
    Except.ok.injEq, Prod.mk.injEq] at h6
  subst hr
  rw [validate_status_fingerprint]
  exact h6.1.symm

/-- C4: for every payload with no explicit fingerprint and a non-empty
name, the resolved fingerprint is the hex-encoded SHA-256 digest of the
UTF-8 bytes of the name; consequently any two such payloads with the
same name receive the identical fingerprint. -/
theorem fingerprint_is_sha256_of_name (p : Values) (now : PyDateTime)
    (nm : PyStr) (r : AlertDto) (ws : List Warning)
    (hfp : p.get kFingerprint = none) (hnm : p.get kName = some (.jstr nm))
    (hne : nm ≠ []) (h : validate_model p now = .ok (r, ws)) :
    r.fingerprint = sha256HexStr nm ∧
    (∀ p2 now2 r2 ws2, p2.get kFingerprint = none →
      p2.get kName = some (.jstr nm) → validate_model p2 now2 = .ok (r2, ws2) →
      r2.fingerprint = r.fingerprint) :=
  ⟨fingerprint_of_ok p now nm r ws hfp hnm hne h,
   fun p2 now2 r2 ws2 hfp2 hnm2 h2 =>
     (fingerprint_of_ok p2 now2 nm r2 ws2 hfp2 hnm2 hne h2).trans
       (fingerprint_of_ok p now nm r ws hfp hnm hne h).symm⟩

/-- The record produced from `pDiskFull` at `nowTest`. -/
def rDiskFull : AlertDto :=
  { id := lit1, name := litDiskFull, status := .firing, severity := .critical,
    lastReceived := litLR, fingerprint := sha256HexStr litDiskFull,
    deleted := false, dismissUntil := none, dismissed := false }

/-- The record produced from `pDiskFull2` at `nowTest`. -/
def rDiskFull2 : AlertDto :=
  { id := lit2, name := litDiskFull, status := .firing, severity := .info,
    lastReceived := litFutureTs, fingerprint := sha256HexStr litDiskFull,
    deleted := false, dismissUntil := none, dismissed := false }

/-- Witness for C4 at concrete inputs: two payloads sharing the name
"Disk full" and no explicit fingerprint build records whose fingerprint
is the digest of the name, identically. -/
theorem fingerprint_is_sha256_of_name_witness :
    validate_model pDiskFull nowTest = .ok (rDiskFull, []) ∧
    validate_model pDiskFull2 nowTest =
      .ok (rDiskFull2, [.invalidSeverity none, .invalidStatus none]) ∧
    rDiskFull.fingerprint = sha256HexStr litDiskFull ∧
    rDiskFull2.fingerprint = rDiskFull.fingerprint :=
  ⟨by decide, by decide,
   (fingerprint_is_sha256_of_name pDiskFull nowTest litDiskFull rDiskFull []
     (by decide) (by decide) (by decide) (by decide)).1,
   (fingerprint_is_sha256_of_name pDiskFull nowTest litDiskFull rDiskFull []
     (by decide) (by decide) (by decide) (by decide)).2 pDiskFull2 nowTest
     rDiskFull2 [.invalidSeverity none, .invalidStatus none]
     (by decide) (by decide) (by decide)⟩

set_option maxHeartbeats 2000000 in
/-- C10: every payload carrying `id`, `name`, `lastReceived` but
omitting the `severity` and `status` keys entirely constructs
successfully with severity defaulted to `info` and status to `firing` —
absent keys are handled like invalid values, not like missing required
fields. -/
theorem absent_severity_status_default (i nm lr : PyStr) (now : PyDateTime) :
    (validate_model (minimalPayload i nm lr) now).map
      (fun x => (x.1.severity, x.1.status)) = .ok (.info, .firing) := by
  rcases nm with _ | ⟨c, cs⟩ <;> rcases lr with _ | ⟨d, ds⟩ <;>
    simp +decide [validate_model, minimalPayload, set_default_values, severityCoerce,
      statusCoerce, Values.get, Values.set, Values.pop, validateStrRequired,
      validateStatusField, validateSeverityField, validate_last_received,
      JValue.truthy, validatedVals5, assign_fingerprint_if_none, dumpsValues,
      dumpsItems, dumpsJ, validate_deleted, validateBool, validateOptStr,
      validate_dismissed, optStrToJ, validate_status, AlertStatus.value,
      AlertSeverity.value, Except.map]

set_option maxHeartbeats 4000000 in
/-- C5: a payload whose raw `severity` matches no severity rank or name,
and/or whose raw `status` is not one of the five canonical names, still
constructs: the severity degrades to `info` (with an invalid-severity
warning emitted first), the status degrades to `firing` (with an
invalid-status warning emitted last), before any dismiss override. -/
theorem invalid_severity_status_degrade (i nm lr : PyStr) (sv st : JValue)
    (now : PyDateTime) (hnm : nm ≠ []) :
    (severityCoerce (some sv) = none →
      (validate_model (degradedPayload i nm lr sv st) now).map
        (fun x => (x.1.severity, x.2.head?)) =
        .ok (.info, some (.invalidSeverity (some sv)))) ∧
    (statusCoerce (some st) = none →
      (validate_model (degradedPayload i nm lr sv st) now).map
        (fun x => (x.1.status, x.2.getLast?)) =
        .ok (.firing, some (.invalidStatus (some st)))) := by
  rcases nm with _ | ⟨c, cs⟩
  · exact absurd rfl hnm
  constructor
  · intro h1
    cases hst : statusCoerce (some st) <;> rcases lr with _ | ⟨d, ds⟩ <;>
      simp +decide [validate_model, degradedPayload, set_default_values,
        Values.get, Values.set, Values.pop, validateStrRequired,
        validateStatusField, validateSeverityField, validate_last_received,
        JValue.truthy, validatedVals5, assign_fingerprint_if_none,
        validate_deleted, validateBool, validateOptStr, validate_dismissed,
        optStrToJ, validate_status, AlertStatus.value, AlertSeverity.value,
        Except.map, h1, hst]
  · intro h2
    cases hsv : severityCoerce (some sv) <;> rcases lr with _ | ⟨d, ds⟩ <;>
      simp +decide [validate_model, degradedPayload, set_default_values,
        Values.get, Values.set, Values.pop, validateStrRequired,
        validateStatusField, validateSeverityField, validate_last_received,
        JValue.truthy, validatedVals5, assign_fingerprint_if_none,
        validate_deleted, validateBool, validateOptStr, validate_dismissed,
        optStrToJ, validate_status, AlertStatus.value, AlertSeverity.value,
        Except.map, h2, hsv]

/-- Modelled from the spec: the literal fixed-width pattern
`YYYY-MM-DDTHH:MM:SS.ffffffZ` — four digits, dash, two digits, dash,
two digits, `T`, two digits, colon, two digits, colon, two digits, dot,
six digits, `Z` — which the spec calls the "exact pattern" a
`dismissUntil` must match.  (The source instead calls `strptime`, which
is laxer; this definition exists to state that discrepancy.) -/
def matchesStrictDismissPattern : PyStr → Bool
  | [y1, y2, y3, y4, a1, m1, m2, a2, d1, d2, t1, h1, h2, b1, n1, n2, b2,
     s1, s2, p1, f1, f2, f3, f4, f5, f6, z1] =>
    y1.isDigit && y2.isDigit && y3.isDigit && y4.isDigit && (a1 == '-') &&
    m1.isDigit && m2.isDigit && (a2 == '-') && d1.isDigit && d2.isDigit &&
    (t1 == 'T') && h1.isDigit && h2.isDigit && (b1 == ':') && n1.isDigit &&
    n2.isDigit && (b2 == ':') && s1.isDigit && s2.isDigit && (p1 == '.') &&
    f1.isDigit && f2.isDigit && f3.isDigit && f4.isDigit && f5.isDigit &&
    f6.isDigit && (z1 == 'Z')
  | _ => false

/-- C6 counterexample: a dismissed-true payload whose `dismissUntil`
`"2099-01-01T00:00:00.5Z"` does not match the exact pattern
`YYYY-MM-DDTHH:MM:SS.ffffffZ`, yet construction does not abort — the
one-digit fraction is accepted by `strptime` and the record is built
dismissed and suppressed. -/
theorem strict_pattern_claim_counterexample :
    matchesStrictDismissPattern litShortFrac = false ∧
    (validate_model pShortFrac nowTest).map
      (fun x => (x.1.dismissed, x.1.status)) = .ok (true, .suppressed) := by
  decide

/-- A dismissed-true value with a present, non-empty, non-"forever"
`dismissUntil` that `strptime` rejects makes `validate_dismissed`
raise `ValueError`. -/
theorem validate_dismissed_malformed (draw : JValue) (vals : Values)
    (now : PyDateTime) (s : PyStr)
    (hnorm : draw = .jbool true ∨ ∃ u, draw = .jstr u ∧
      u.map Char.toLower = trueLit)
    (hv : vals.get kDismissUntil = some (.jstr s)) (hne : s ≠ [])
    (hnf : s ≠ foreverLit) (hbad : strptimeYmdHMSfZ s = none) :
    validate_dismissed draw vals now = .error (.valueError kDismissed) := by
  have hemp : s.isEmpty = false := by
    cases hcs : s with
    | nil => exact absurd hcs hne
    | cons a as => rfl
  rcases hnorm with rfl | ⟨u, rfl, hu⟩
  · simp [validate_dismissed, hv, JValue.truthy, hemp, hnf, hbad]
  · simp [validate_dismissed, hv, JValue.truthy, hemp, hnf, hbad, hu]

/-- C6 (amended): for every payload whose raw `dismissed` normalizes to
true and whose `dismissUntil` is a present, non-empty string other than
"forever" that fails the actual `strptime` parse under
`%Y-%m-%dT%H:%M:%S.%fZ` (which tolerates 1-6 fraction digits, one- or
two-digit month/day/hour/minute/second and lowercase `t`/`z`),
`validate_dismissed` raises a hard `ValueError` and record construction
never succeeds. -/
theorem malformed_dismissUntil_aborts (p : Values) (now : PyDateTime)
    (draw : JValue) (s : PyStr)
    (hdraw : p.get kDismissed = some draw)
    (hnorm : draw = .jbool true ∨ ∃ u, draw = .jstr u ∧
      u.map Char.toLower = trueLit)
    (hdu : p.get kDismissUntil = some (.jstr s)) (hne : s ≠ [])
    (hnf : s ≠ foreverLit) (hbad : strptimeYmdHMSfZ s = none) :
    (∀ vals, vals.get kDismissUntil = some (.jstr s) →
      validate_dismissed draw vals now = .error (.valueError kDismissed)) ∧
    exceptIsOk (validate_model p now) = false := by
  constructor
  · intro vals hv
    exact validate_dismissed_malformed draw vals now s hnorm hv hne hnf hbad
  · cases hok : validate_model p now with
    | error e => rfl
    | ok rw2 =>
      exfalso
      obtain ⟨r2, ws2⟩ := rw2
      obtain ⟨values, w1, idv, namev, statusv, severityv, lrv, fpv, w2, delv,
        duv, dJ, dsv, h0, h1, h2, h3, h4, h5, h6, h7, h8, h9, h10, hr, hws⟩ :=
        validate_model_ok_inv p now r2 ws2 hok
      have hvdm : values.get kDismissed = some draw := by
        rw [set_default_values_get p values w1 kDismissed h0 (by decide)
          (by decide) (by decide) (by decide)]
        exact hdraw
      have hvdu : values.get kDismissUntil = some (.jstr s) := by
        rw [set_default_values_get p values w1 kDismissUntil h0 (by decide)
          (by decide) (by decide) (by decide)]
        exact hdu
      rw [hvdu] at h8
      have hduv : duv = some s := by
        simp only [validateOptStr, Except.ok.injEq] at h8
        exact h8.symm
      subst hduv
      rw [hvdm] at h9
      simp only [Option.getD_some] at h9
      have hvget : ((((validatedVals5 idv namev statusv severityv lrv).set
          kFingerprint (.jstr fpv)).set kDeleted (.jbool delv)).set
          kDismissUntil (optStrToJ (some s))).get kDismissUntil =
          some (.jstr s) := by
        rw [Values.get_set_self]
        rfl
      rw [validate_dismissed_malformed draw _ now s hnorm hvget hne hnf hbad]
        at h9
      exact Except.noConfusion h9

/-- Witness for C6's amended claim at a concrete input: dismissed
"true" with `dismissUntil` `"not-a-timestamp"` makes the validator
raise and construction fail. -/
theorem malformed_dismissUntil_aborts_witness :
    validate_dismissed (.jstr trueLit) [(kDismissUntil, .jstr litBadTs)]
      nowTest = .error (.valueError kDismissed) ∧
    exceptIsOk (validate_model pBadDismissUntil nowTest) = false :=
  ⟨(malformed_dismissUntil_aborts pBadDismissUntil nowTest (.jstr trueLit)
      litBadTs (by decide) (Or.inr ⟨trueLit, rfl, by decide⟩) (by decide)
      (by decide) (by decide) (by decide)).1
      [(kDismissUntil, .jstr litBadTs)] (by decide),
   (malformed_dismissUntil_aborts pBadDismissUntil nowTest (.jstr trueLit)
      litBadTs (by decide) (Or.inr ⟨trueLit, rfl, by decide⟩) (by decide)
      (by decide) (by decide) (by decide)).2⟩

/-- The parsed form of `litPastTs`. -/
def pastDt : PyDateTime := ⟨2000, 1, 1, 0, 0, 0, 0⟩

/-- C7: the dismissal evaluator's full behaviour.  A raw value that
normalizes to false (a string whose lowercasing is not "true", or the
boolean false) yields false regardless of `dismissUntil`; a raw value
that normalizes to true (boolean true or a case-insensitive "true"
string) yields true when `dismissUntil` is absent, null, empty or the
literal "forever", and for a well-formed `dismissUntil` yields true
exactly when the current UTC instant is strictly before it; and a
non-dismissed record gets no status override. -/
theorem validate_dismissed_semantics (vals : Values) (now : PyDateTime) :
    (∀ u, u.map Char.toLower ≠ trueLit →
      validate_dismissed (.jstr u) vals now = .ok (.jbool false)) ∧
    validate_dismissed (.jbool false) vals now = .ok (.jbool false) ∧
    (∀ draw, (draw = .jbool true ∨ ∃ u, draw = .jstr u ∧
        u.map Char.toLower = trueLit) →
      (vals.get kDismissUntil = none ∨ vals.get kDismissUntil = some .jnull ∨
       vals.get kDismissUntil = some (.jstr []) ∨
       vals.get kDismissUntil = some (.jstr foreverLit)) →
      validate_dismissed draw vals now = .ok (.jbool true)) ∧
    (∀ draw s dt, (draw = .jbool true ∨ ∃ u, draw = .jstr u ∧
        u.map Char.toLower = trueLit) →
      vals.get kDismissUntil = some (.jstr s) → strptimeYmdHMSfZ s = some dt →
      validate_dismissed draw vals now = .ok (.jbool (PyDateTime.blt now dt))) ∧
    (∀ r : AlertDto, r.dismissed = false → validate_status r = r) := by
  refine ⟨?_, ?_, ?_, ?_, ?_⟩
  · intro u hu
    simp [validate_dismissed, hu, JValue.truthy]
  · simp [validate_dismissed, JValue.truthy]
  · intro draw hn hcase
    rcases hn with rfl | ⟨u, rfl, hu⟩ <;>
      rcases hcase with h | h | h | h <;>
      simp_all [validate_dismissed, JValue.truthy]
  · intro draw s dt hn hv hstrp
    have hne : s ≠ [] := by
      intro he
      subst he
      rw [show strptimeYmdHMSfZ [] = none from by decide] at hstrp
      exact Option.noConfusion hstrp
    have hnf : s ≠ foreverLit := by
      intro he
      subst he
      rw [show strptimeYmdHMSfZ foreverLit = none from by decide] at hstrp
      exact Option.noConfusion hstrp
    have hemp : s.isEmpty = false := by
      cases hcs : s with
      | nil => exact absurd hcs hne
      | cons a as => rfl
    rcases hn with rfl | ⟨u, rfl, hu⟩
    · simp [validate_dismissed, hv, JValue.truthy, hemp, hnf, hstrp]
    · simp [validate_dismissed, hv, JValue.truthy, hemp, hnf, hstrp, hu]
  · intro r h
    simp [validate_status, h]

/-- Witness for C7 at concrete inputs: a non-"true" string is not
dismissed; boolean true with `dismissUntil` "forever" stays dismissed;
"TRUE" with a past `dismissUntil` resolves to not-dismissed (the
comparison is strict and `nowTest` is after `pastDt`). -/
theorem validate_dismissed_semantics_witness :
    validate_dismissed (.jstr litX) [] nowTest = .ok (.jbool false) ∧
    validate_dismissed (.jbool true) [(kDismissUntil, .jstr foreverLit)]
      nowTest = .ok (.jbool true) ∧
    validate_dismissed (.jstr litTRUE) [(kDismissUntil, .jstr litPastTs)]
      nowTest = .ok (.jbool (PyDateTime.blt nowTest pastDt)) ∧
    PyDateTime.blt nowTest pastDt = false :=
  ⟨(validate_dismissed_semantics [] nowTest).1 litX (by decide),
   (validate_dismissed_semantics [(kDismissUntil, .jstr foreverLit)]
     nowTest).2.2.1 (.jbool true) (Or.inl rfl)
     (Or.inr (Or.inr (Or.inr (by decide)))),
   (validate_dismissed_semantics [(kDismissUntil, .jstr litPastTs)]
     nowTest).2.2.2.1 (.jstr litTRUE) litPastTs pastDt
     (Or.inr ⟨litTRUE, rfl, by decide⟩) (by decide) (by decide),
   by decide⟩

/-- C8: an explicitly supplied fingerprint string is returned as
exactly its first 255 characters, never hashed; a fingerprint of at
most 255 characters passes through unchanged. -/
theorem explicit_fingerprint_truncation (f : PyStr) (vals : Values) :
    assign_fingerprint_if_none (some (.jstr f)) vals = .ok (f.take 255, []) ∧
    (f.length ≤ 255 →
      assign_fingerprint_if_none (some (.jstr f)) vals = .ok (f, [])) := by
  constructor
  · rfl
  · intro hle
    simp [assign_fingerprint_if_none, List.take_of_length_le hle]

/-- A 300-character explicit fingerprint. -/
def fLong : PyStr := List.replicate 300 'a'

/-- A 10-character explicit fingerprint. -/
def fShort : PyStr := List.replicate 10 'b'

set_option maxRecDepth 4000 in
/-- Witness for C8 at concrete inputs: 300 characters truncate to
exactly the first 255; 10 characters pass through unchanged. -/
theorem explicit_fingerprint_truncation_witness :
    assign_fingerprint_if_none (some (.jstr fLong)) [] =
      .ok (List.replicate 255 'a', []) ∧
    fShort.length ≤ 255 ∧
    assign_fingerprint_if_none (some (.jstr fShort)) [] = .ok (fShort, []) :=
  ⟨(explicit_fingerprint_truncation fLong []).1.trans (by decide),
   by decide,
   (explicit_fingerprint_truncation fShort []).2 (by decide)⟩

/-- Witness for C5 at the spec's own example: severity "nonexistent"
and status "bogus" degrade to `info`/`firing` with both warnings
emitted. -/
theorem invalid_severity_status_degrade_witness :
    (validate_model (degradedPayload lit1 litX litLR (.jstr litNonexistent)
      (.jstr litBogus)) nowTest).map (fun x => (x.1.severity, x.2.head?)) =
      .ok (.info, some (.invalidSeverity (some (.jstr litNonexistent)))) ∧
    (validate_model (degradedPayload lit1 litX litLR (.jstr litNonexistent)
      (.jstr litBogus)) nowTest).map (fun x => (x.1.status, x.2.getLast?)) =
      .ok (.firing, some (.invalidStatus (some (.jstr litBogus)))) :=
  ⟨(invalid_severity_status_degrade lit1 litX litLR (.jstr litNonexistent)
      (.jstr litBogus) nowTest (by decide)).1 (by decide),
   (invalid_severity_status_degrade lit1 litX litLR (.jstr litNonexistent)
      (.jstr litBogus) nowTest (by decide)).2 (by decide)⟩
